import Mathlib

/-!
# Pomodoro timer: the state machine of `script.js`

A shallow embedding of the class `PomodoroTimer` of `src/script.js`.

* The object's fields become the fields of the structure `PomodoroTimer`.
  Each method becomes a function from state to state.
* The browser is part of the state: the interval handles that are live
  (`setInterval` / `clearInterval`), the notification permission, and the list of
  effects the page has produced (alert sound, notifications, `alert` dialogs,
  writes to `localStorage`).
* Rendering (`updateDisplay`, `updateModeButtons`, button states, the "Saved!"
  feedback) writes only to the DOM and is left out; the progress value that
  `updateDisplay` computes is the pure function `progress`.
* Numbers are JavaScript numbers restricted to what the program produces:
  integers (exact below `2 ^ 53`, far above any count or duration reached here)
  and `NaN`, which `parseInt` returns for text that does not start with a number.
-/

namespace Pomodoro

/-! ## Numbers -/

/-- A JavaScript number as this program meets it: an integer or `NaN`. -/
inductive JSNum where
  | nan : JSNum
  | int (n : Int) : JSNum
  deriving DecidableEq, Repr

namespace JSNum

/-- The JavaScript comparison `a < b`; false when either side is `NaN`. -/
def lt : JSNum → JSNum → Bool
  | int a, int b => decide (a < b)
  | _, _ => false

/-- The JavaScript comparison `a > b`; false when either side is `NaN`. -/
def gt : JSNum → JSNum → Bool
  | int a, int b => decide (a > b)
  | _, _ => false

/-- The JavaScript comparison `a <= b`; false when either side is `NaN`. -/
def le : JSNum → JSNum → Bool
  | int a, int b => decide (a ≤ b)
  | _, _ => false

/-- The JavaScript product `a * b`. -/
def mul : JSNum → JSNum → JSNum
  | int a, int b => int (a * b)
  | _, _ => nan

/-- The value left in `x` by `x--`. -/
def dec : JSNum → JSNum
  | int a => int (a - 1)
  | nan => nan

/-- The JavaScript remainder `a % b`: truncated, with the sign of the dividend,
and `NaN` when the divisor is zero or either side is `NaN`. -/
def rem : JSNum → JSNum → JSNum
  | int a, int b => if b = 0 then nan else int (Int.tmod a b)
  | _, _ => nan

end JSNum

/-! ## Data model -/

/-- The value of `currentMode`: one of the three strings the program names, or
any other value a `data-mode` attribute may carry. -/
inductive Mode where
  | work : Mode
  | shortBreak : Mode
  | longBreak : Mode
  | other : Mode
  deriving DecidableEq, Repr

/-- The object written to `localStorage` under the key `pomodoroSettings`. -/
structure Settings where
  workDuration : JSNum
  shortBreakDuration : JSNum
  longBreakDuration : JSNum
  sessionsBeforeLongBreak : JSNum
  deriving DecidableEq, Repr

/-- The value of `Notification.permission`. -/
inductive Permission where
  | granted : Permission
  | default : Permission
  | denied : Permission
  deriving DecidableEq, Repr

/-- What the page does to the outside world. -/
inductive Effect where
  | alertSound : Effect
  | notify (body : String) : Effect
  | requestPermission : Effect
  | alert (msg : String) : Effect
  | setItem (settings : Settings) : Effect
  deriving DecidableEq, Repr

/-- The fields of a `PomodoroTimer` object, followed by the part of the browser
the methods read and write. -/
structure PomodoroTimer where
  workDuration : JSNum
  shortBreakDuration : JSNum
  longBreakDuration : JSNum
  sessionsBeforeLongBreak : JSNum
  currentMode : Mode
  timeRemaining : JSNum
  isRunning : Bool
  intervalId : Option Nat
  sessionCount : Int
  /-- Handles of the intervals created by `setInterval` and not yet cleared. -/
  liveIntervals : List Nat
  /-- The handle the next `setInterval` returns. -/
  nextHandle : Nat
  /-- Whether `'Notification' in window` holds. -/
  notificationSupported : Bool
  permission : Permission
  /-- Effects produced so far, oldest first. -/
  effects : List Effect
  deriving DecidableEq, Repr

/-! ## Methods -/

/-- Method `switchMode(mode)` (lines 71-90). -/
def switchMode (mode : Mode) (s : PomodoroTimer) : PomodoroTimer :=
  if s.isRunning then s
  else
    let s1 := { s with currentMode := mode }
    match mode with
    | .work => { s1 with timeRemaining := s1.workDuration }
    | .shortBreak => { s1 with timeRemaining := s1.shortBreakDuration }
    | .longBreak => { s1 with timeRemaining := s1.longBreakDuration }
    | .other => s1

/-- Method `getTotalTimeForCurrentMode()` (lines 185-196). -/
def getTotalTimeForCurrentMode (s : PomodoroTimer) : JSNum :=
  match s.currentMode with
  | .work => s.workDuration
  | .shortBreak => s.shortBreakDuration
  | .longBreak => s.longBreakDuration
  | .other => s.workDuration

/-- Browser call `clearInterval(id)`: the interval with that handle, if any, is no
longer live. -/
def clearInterval (id : Option Nat) (live : List Nat) : List Nat :=
  match id with
  | none => live
  | some h => live.filter (fun x => x ≠ h)

/-- Method `pause()` (lines 119-128). -/
def pause (s : PomodoroTimer) : PomodoroTimer :=
  if !s.isRunning then s
  else
    { s with
      isRunning := false
      liveIntervals := clearInterval s.intervalId s.liveIntervals }

/-- Method `reset()` (lines 130-146). -/
def reset (s : PomodoroTimer) : PomodoroTimer :=
  let s1 := pause s
  match s1.currentMode with
  | .work => { s1 with timeRemaining := s1.workDuration }
  | .shortBreak => { s1 with timeRemaining := s1.shortBreakDuration }
  | .longBreak => { s1 with timeRemaining := s1.longBreakDuration }
  | .other => s1

/-- Method `playAlertSound()` (lines 198-234): the two-tone chime, as one effect. -/
def playAlertSound (s : PomodoroTimer) : PomodoroTimer :=
  { s with effects := s.effects ++ [Effect.alertSound] }

/-- Method `showNotification()` (lines 236-250). -/
def showNotification (s : PomodoroTimer) : PomodoroTimer :=
  if s.notificationSupported && decide (s.permission = Permission.granted) then
    let message :=
      if s.currentMode = Mode.work then "Break time! Take a well-deserved rest."
      else "Break over! Time to get back to work."
    { s with effects := s.effects ++ [Effect.notify message] }
  else if s.notificationSupported && decide (s.permission = Permission.default) then
    { s with effects := s.effects ++ [Effect.requestPermission] }
  else s

/-- Method `completeSession()` (lines 148-169). -/
def completeSession (s : PomodoroTimer) : PomodoroTimer :=
  let s1 := playAlertSound (pause s)
  let s2 :=
    if s1.currentMode = Mode.work then
      let s11 := { s1 with sessionCount := s1.sessionCount + 1 }
      if JSNum.rem (JSNum.int s11.sessionCount) s11.sessionsBeforeLongBreak = JSNum.int 0 then
        switchMode Mode.longBreak s11
      else
        switchMode Mode.shortBreak s11
    else
      switchMode Mode.work s1
  showNotification s2

/-- The callback `start()` hands to `setInterval` (lines 109-116): one tick. -/
def tick (s : PomodoroTimer) : PomodoroTimer :=
  let s1 := { s with timeRemaining := s.timeRemaining.dec }
  if s1.timeRemaining.le (JSNum.int 0) then completeSession s1 else s1

/-- Method `start()` (lines 101-117). -/
def start (s : PomodoroTimer) : PomodoroTimer :=
  if s.isRunning then s
  else
    { s with
      isRunning := true
      intervalId := some s.nextHandle
      liveIntervals := s.nextHandle :: s.liveIntervals
      nextHandle := s.nextHandle + 1 }

/-- The browser's timer queue delivering one tick: the callback runs only while an
interval is live. -/
def intervalFires (s : PomodoroTimer) : PomodoroTimer :=
  if s.liveIntervals.isEmpty then s else tick s

/-- The browser call `alert(msg)`. -/
def alert (msg : String) (s : PomodoroTimer) : PomodoroTimer :=
  { s with effects := s.effects ++ [Effect.alert msg] }

/-- Method `saveSettings()` (lines 252-307). The four arguments are the values
`parseInt` returns for the four input fields: an integer, or `NaN` when the text
does not start with a number (an empty field, for one). -/
def saveSettings (workMinutes shortBreakMinutes longBreakMinutes sessions : JSNum)
    (s : PomodoroTimer) : PomodoroTimer :=
  if workMinutes.lt (JSNum.int 1) || workMinutes.gt (JSNum.int 60) then
    alert "Work duration must be between 1 and 60 minutes" s
  else if shortBreakMinutes.lt (JSNum.int 1) || shortBreakMinutes.gt (JSNum.int 30) then
    alert "Short break must be between 1 and 30 minutes" s
  else if longBreakMinutes.lt (JSNum.int 1) || longBreakMinutes.gt (JSNum.int 60) then
    alert "Long break must be between 1 and 60 minutes" s
  else if sessions.lt (JSNum.int 1) || sessions.gt (JSNum.int 10) then
    alert "Sessions before long break must be between 1 and 10" s
  else
    let settings : Settings :=
      { workDuration := workMinutes.mul (JSNum.int 60)
        shortBreakDuration := shortBreakMinutes.mul (JSNum.int 60)
        longBreakDuration := longBreakMinutes.mul (JSNum.int 60)
        sessionsBeforeLongBreak := sessions }
    let s1 := { s with effects := s.effects ++ [Effect.setItem settings] }
    let s2 :=
      { s1 with
        workDuration := settings.workDuration
        shortBreakDuration := settings.shortBreakDuration
        longBreakDuration := settings.longBreakDuration
        sessionsBeforeLongBreak := settings.sessionsBeforeLongBreak }
    if !s2.isRunning then reset s2 else s2

/-- Method `loadSettings()` (lines 309-327); `saved` is the parsed item of
`localStorage`, absent on a first visit. -/
def loadSettings (saved : Option Settings) (s : PomodoroTimer) : PomodoroTimer :=
  let s1 :=
    match saved with
    | some settings =>
      { s with
        workDuration := settings.workDuration
        shortBreakDuration := settings.shortBreakDuration
        longBreakDuration := settings.longBreakDuration
        sessionsBeforeLongBreak := settings.sessionsBeforeLongBreak }
    | none => s
  { s1 with timeRemaining := s1.workDuration }

/-- The class constructor (lines 2-18), in a browser with the given notification
support and permission and the given stored settings. -/
def newTimer (notificationSupported : Bool) (permission : Permission)
    (saved : Option Settings) : PomodoroTimer :=
  loadSettings saved
    { workDuration := JSNum.int (25 * 60)
      shortBreakDuration := JSNum.int (5 * 60)
      longBreakDuration := JSNum.int (15 * 60)
      sessionsBeforeLongBreak := JSNum.int 4
      currentMode := Mode.work
      timeRemaining := JSNum.int (25 * 60)
      isRunning := false
      intervalId := none
      sessionCount := 0
      liveIntervals := []
      nextHandle := 0
      notificationSupported := notificationSupported
      permission := permission
      effects := [] }

/-- The progress value of `updateDisplay()` (lines 179-180),
`(totalTime - timeRemaining) / totalTime`, as an exact rational; `none` when the
JavaScript value is not a finite number (a `NaN` operand or a zero divisor). -/
def progress (s : PomodoroTimer) : Option ℚ :=
  match getTotalTimeForCurrentMode s, s.timeRemaining with
  | JSNum.int total, JSNum.int remaining =>
    if total = 0 then none else some (((total - remaining : Int) : ℚ) / (total : ℚ))
  | _, _ => none

/-! ## Vocabulary of the properties -/

/-- The length configured for a mode: the setting that `switchMode`, `reset` and
`getTotalTimeForCurrentMode` read for it (`workDuration` for an unnamed mode, as
in the `default` branch). -/
def duration (s : PomodoroTimer) : Mode → JSNum
  | Mode.work => s.workDuration
  | Mode.shortBreak => s.shortBreakDuration
  | Mode.longBreak => s.longBreakDuration
  | Mode.other => s.workDuration

/-- How many times `completeSession` has run: it alone plays the alert sound, once
per run. -/
def completions (s : PomodoroTimer) : Nat :=
  s.effects.count Effect.alertSound

/-- The bodies of the notifications shown so far, oldest first. -/
def notifications (s : PomodoroTimer) : List String :=
  s.effects.filterMap fun e =>
    match e with
    | Effect.notify body => some body
    | _ => none

/-- The modes the program names. -/
def Mode.named (m : Mode) : Bool :=
  decide (m ≠ Mode.other)

/-- The value is an integer between `lo` and `hi`. -/
def JSNum.within (lo hi : Int) : JSNum → Bool
  | JSNum.int n => decide (lo ≤ n) && decide (n ≤ hi)
  | JSNum.nan => false

/-- The bounds policy of the settings form: work 1-60, short break 1-30, long break
1-60 minutes, 1-10 sessions. -/
def inBounds (workMinutes shortBreakMinutes longBreakMinutes sessions : JSNum) : Bool :=
  workMinutes.within 1 60 && shortBreakMinutes.within 1 30 &&
    longBreakMinutes.within 1 60 && sessions.within 1 10

/-- One operation on the timer: a method call, or the timer queue delivering a
tick. -/
inductive Op where
  | switchMode (m : Mode) : Op
  | start : Op
  | tick : Op
  | pause : Op
  | reset : Op
  | completeSession : Op
  | saveSettings (workMinutes shortBreakMinutes longBreakMinutes sessions : JSNum) : Op
  deriving DecidableEq, Repr

/-- The effect of one operation. -/
def Op.apply : Op → PomodoroTimer → PomodoroTimer
  | Op.switchMode m, s => Pomodoro.switchMode m s
  | Op.start, s => Pomodoro.start s
  | Op.tick, s => intervalFires s
  | Op.pause, s => Pomodoro.pause s
  | Op.reset, s => Pomodoro.reset s
  | Op.completeSession, s => Pomodoro.completeSession s
  | Op.saveSettings w b l n, s => Pomodoro.saveSettings w b l n s

/-- Operations with well-formed arguments: a named mode, in-bounds settings. -/
def Op.admissible : Op → Bool
  | Op.switchMode m => m.named
  | Op.saveSettings w b l n => inBounds w b l n
  | _ => true

/-- Whether the operation is a `saveSettings`. -/
def Op.isSave : Op → Bool
  | Op.saveSettings _ _ _ _ => true
  | _ => false

/-- States reached from `s0` by admissible operations. -/
inductive Reachable (s0 : PomodoroTimer) : PomodoroTimer → Prop where
  | initial : Reachable s0 s0
  | step (op : Op) (s : PomodoroTimer) :
      Reachable s0 s → op.admissible = true → Reachable s0 (op.apply s)

/-- States reached from `s0` by admissible operations when settings are saved only
while the timer is not running. -/
inductive ReachableIdleSave (s0 : PomodoroTimer) : PomodoroTimer → Prop where
  | initial : ReachableIdleSave s0 s0
  | step (op : Op) (s : PomodoroTimer) :
      ReachableIdleSave s0 s → op.admissible = true →
      (op.isSave = true → s.isRunning = false) → ReachableIdleSave s0 (op.apply s)

/-- A freshly constructed timer with integer settings: work mode, the full work
duration remaining, not running, no session counted, no interval live. -/
def IsInitial (s : PomodoroTimer) : Prop :=
  s.currentMode = Mode.work ∧ s.timeRemaining = s.workDuration ∧ s.isRunning = false ∧
    s.sessionCount = 0 ∧ s.liveIntervals = [] ∧
    ∃ w b l : Int, s.workDuration = JSNum.int w ∧ s.shortBreakDuration = JSNum.int b ∧
      s.longBreakDuration = JSNum.int l

/-- The running flag agrees with the timer queue: while running, the one live
interval is the one `intervalId` holds; otherwise none is live. -/
def Consistent (s : PomodoroTimer) : Prop :=
  if s.isRunning then s.liveIntervals = s.intervalId.toList ∧ s.intervalId ≠ none
  else s.liveIntervals = []

/-- The break that follows the work session numbered `k` under cadence `n`. -/
def nextBreak (k n : Int) : Mode :=
  if k % n = 0 then Mode.longBreak else Mode.shortBreak

/-- The state once `saveSettings` has stored and assigned the four settings (lines
277-291), before the conditional `reset`. -/
def withSettings (workMinutes shortBreakMinutes longBreakMinutes sessions : JSNum)
    (s : PomodoroTimer) : PomodoroTimer :=
  { s with
    workDuration := workMinutes.mul (JSNum.int 60)
    shortBreakDuration := shortBreakMinutes.mul (JSNum.int 60)
    longBreakDuration := longBreakMinutes.mul (JSNum.int 60)
    sessionsBeforeLongBreak := sessions
    effects := s.effects ++ [Effect.setItem
      { workDuration := workMinutes.mul (JSNum.int 60)
        shortBreakDuration := shortBreakMinutes.mul (JSNum.int 60)
        longBreakDuration := longBreakMinutes.mul (JSNum.int 60)
        sessionsBeforeLongBreak := sessions }] }

/-- The three durations of `t` are those of `s`. -/
def SameDurations (s t : PomodoroTimer) : Prop :=
  t.workDuration = s.workDuration ∧ t.shortBreakDuration = s.shortBreakDuration ∧
    t.longBreakDuration = s.longBreakDuration

/-- The three durations are whole minutes, at least one each, in seconds: what an
accepted `saveSettings` assigns. -/
def MinuteDurations (s : PomodoroTimer) : Prop :=
  ∃ a b c : Int, 1 ≤ a ∧ 1 ≤ b ∧ 1 ≤ c ∧ s.workDuration = JSNum.int (a * 60) ∧
    s.shortBreakDuration = JSNum.int (b * 60) ∧ s.longBreakDuration = JSNum.int (c * 60)

/-- The three durations are positive integers (the invariant of `Settings`). -/
def PositiveDurations (s : PomodoroTimer) : Prop :=
  ∃ w b l : Int, 0 < w ∧ 0 < b ∧ 0 < l ∧ s.workDuration = JSNum.int w ∧
    s.shortBreakDuration = JSNum.int b ∧ s.longBreakDuration = JSNum.int l

/-- What one operation did to the countdown, in four cases: it kept it; it refilled
it with the duration of the (named) mode it leaves; it took one second off, more
than zero remaining; or it saved settings under a running countdown. -/
def Outcome (op : Op) (s t : PomodoroTimer) : Prop :=
  (SameDurations s t ∧ t.currentMode = s.currentMode ∧ t.timeRemaining = s.timeRemaining) ∨
  ((SameDurations s t ∨ MinuteDurations t) ∧ t.currentMode ≠ Mode.other ∧
    t.timeRemaining = duration t t.currentMode) ∨
  (SameDurations s t ∧ t.currentMode = s.currentMode ∧
    ∃ r : Int, s.timeRemaining = JSNum.int r ∧ 1 ≤ r - 1 ∧ t.timeRemaining = JSNum.int (r - 1)) ∨
  (op.isSave = true ∧ s.isRunning = true ∧ MinuteDurations t ∧
    t.currentMode = s.currentMode ∧ t.timeRemaining = s.timeRemaining)

/-- The invariant behind the bound on `timeRemaining`: a named mode, integer
durations, and no more time remaining than the duration of the mode. -/
def WithinDuration (s : PomodoroTimer) : Prop :=
  s.currentMode ≠ Mode.other ∧ (∀ m : Mode, ∃ d : Int, duration s m = JSNum.int d) ∧
    JSNum.le s.timeRemaining (duration s s.currentMode) = true

/-- The invariant behind the progress value: a named mode, positive integer
durations, and at least one second remaining. -/
def PositiveCountdown (s : PomodoroTimer) : Prop :=
  s.currentMode ≠ Mode.other ∧ (∀ m : Mode, ∃ d : Int, duration s m = JSNum.int d ∧ 0 < d) ∧
    ∃ r : Int, s.timeRemaining = JSNum.int r ∧ 1 ≤ r

/-! ## Basic facts about the methods -/

@[simp] theorem pause_isRunning (s : PomodoroTimer) : (pause s).isRunning = false := by
  unfold pause
  cases h : s.isRunning <;> simp [h]

theorem switchMode_idle (m : Mode) (s : PomodoroTimer) (h : s.isRunning = false) :
    switchMode m s = { s with currentMode := m, timeRemaining :=
      if m = Mode.other then s.timeRemaining else duration s m } := by
  cases m <;> simp [switchMode, h, duration]

/-- An idle `switchMode` to a named mode: the mode and its full duration. -/
theorem switchMode_named_idle (m : Mode) (s : PomodoroTimer) (hm : m.named = true)
    (h : s.isRunning = false) :
    switchMode m s = { s with currentMode := m, timeRemaining := duration s m } := by
  have hne : m ≠ Mode.other := by simpa [Mode.named] using hm
  rw [switchMode_idle m s h]
  simp [hne]

/-- JavaScript `a % b === 0` on integers with a non-zero divisor is divisibility. -/
theorem rem_eq_zero_iff (a b : Int) (hb : b ≠ 0) :
    JSNum.rem (JSNum.int a) (JSNum.int b) = JSNum.int 0 ↔ a % b = 0 := by
  simp only [JSNum.rem, hb, if_false, JSNum.int.injEq]
  constructor
  · intro h
    exact Int.emod_eq_zero_of_dvd (Int.dvd_of_tmod_eq_zero h)
  · intro h
    exact Int.tmod_eq_zero_of_dvd (Int.dvd_of_emod_eq_zero h)

@[simp] theorem pause_workDuration (s : PomodoroTimer) : (pause s).workDuration = s.workDuration := by
  unfold pause; split <;> rfl

@[simp] theorem pause_shortBreakDuration (s : PomodoroTimer) : (pause s).shortBreakDuration = s.shortBreakDuration := by
  unfold pause; split <;> rfl

@[simp] theorem pause_longBreakDuration (s : PomodoroTimer) : (pause s).longBreakDuration = s.longBreakDuration := by
  unfold pause; split <;> rfl

@[simp] theorem pause_sessionsBeforeLongBreak (s : PomodoroTimer) : (pause s).sessionsBeforeLongBreak = s.sessionsBeforeLongBreak := by
  unfold pause; split <;> rfl

@[simp] theorem pause_currentMode (s : PomodoroTimer) : (pause s).currentMode = s.currentMode := by
  unfold pause; split <;> rfl

@[simp] theorem pause_timeRemaining (s : PomodoroTimer) : (pause s).timeRemaining = s.timeRemaining := by
  unfold pause; split <;> rfl

@[simp] theorem pause_intervalId (s : PomodoroTimer) : (pause s).intervalId = s.intervalId := by
  unfold pause; split <;> rfl

@[simp] theorem pause_sessionCount (s : PomodoroTimer) : (pause s).sessionCount = s.sessionCount := by
  unfold pause; split <;> rfl

@[simp] theorem pause_nextHandle (s : PomodoroTimer) : (pause s).nextHandle = s.nextHandle := by
  unfold pause; split <;> rfl

@[simp] theorem pause_notificationSupported (s : PomodoroTimer) : (pause s).notificationSupported = s.notificationSupported := by
  unfold pause; split <;> rfl

@[simp] theorem pause_permission (s : PomodoroTimer) : (pause s).permission = s.permission := by
  unfold pause; split <;> rfl

@[simp] theorem pause_effects (s : PomodoroTimer) : (pause s).effects = s.effects := by
  unfold pause; split <;> rfl

@[simp] theorem duration_pause (s : PomodoroTimer) (m : Mode) :
    duration (pause s) m = duration s m := by
  cases m <;> simp [duration]

@[simp] theorem showNotification_currentMode (s : PomodoroTimer) :
    (showNotification s).currentMode = s.currentMode := by
  unfold showNotification; split <;> [rfl; (split <;> rfl)]

@[simp] theorem showNotification_timeRemaining (s : PomodoroTimer) :
    (showNotification s).timeRemaining = s.timeRemaining := by
  unfold showNotification; split <;> [rfl; (split <;> rfl)]

@[simp] theorem showNotification_isRunning (s : PomodoroTimer) :
    (showNotification s).isRunning = s.isRunning := by
  unfold showNotification; split <;> [rfl; (split <;> rfl)]

@[simp] theorem showNotification_sessionCount (s : PomodoroTimer) :
    (showNotification s).sessionCount = s.sessionCount := by
  unfold showNotification; split <;> [rfl; (split <;> rfl)]

@[simp] theorem showNotification_workDuration (s : PomodoroTimer) :
    (showNotification s).workDuration = s.workDuration := by
  unfold showNotification; split <;> [rfl; (split <;> rfl)]

@[simp] theorem showNotification_shortBreakDuration (s : PomodoroTimer) :
    (showNotification s).shortBreakDuration = s.shortBreakDuration := by
  unfold showNotification; split <;> [rfl; (split <;> rfl)]

@[simp] theorem showNotification_longBreakDuration (s : PomodoroTimer) :
    (showNotification s).longBreakDuration = s.longBreakDuration := by
  unfold showNotification; split <;> [rfl; (split <;> rfl)]

@[simp] theorem showNotification_sessionsBeforeLongBreak (s : PomodoroTimer) :
    (showNotification s).sessionsBeforeLongBreak = s.sessionsBeforeLongBreak := by
  unfold showNotification; split <;> [rfl; (split <;> rfl)]

@[simp] theorem showNotification_liveIntervals (s : PomodoroTimer) :
    (showNotification s).liveIntervals = s.liveIntervals := by
  unfold showNotification; split <;> [rfl; (split <;> rfl)]

@[simp] theorem showNotification_intervalId (s : PomodoroTimer) :
    (showNotification s).intervalId = s.intervalId := by
  unfold showNotification; split <;> [rfl; (split <;> rfl)]

/-- What `completeSession` does in work mode, the cadence being a non-zero
integer. -/
theorem completeSession_work (s : PomodoroTimer) (n : Int) (hn : n ≠ 0)
    (hmode : s.currentMode = Mode.work) (hcad : s.sessionsBeforeLongBreak = JSNum.int n) :
    completeSession s = showNotification
      { playAlertSound (pause s) with
        sessionCount := s.sessionCount + 1
        currentMode := nextBreak (s.sessionCount + 1) n
        timeRemaining := duration s (nextBreak (s.sessionCount + 1) n) } := by
  unfold completeSession
  simp only [playAlertSound, pause_currentMode, pause_sessionsBeforeLongBreak,
    pause_sessionCount, hmode, hcad, if_true, rem_eq_zero_iff _ _ hn]
  by_cases hk : (s.sessionCount + 1) % n = 0
  · simp only [hk, if_true, nextBreak]
    rw [switchMode_idle _ _ (by simp)]
    simp [duration]
  · simp only [hk, if_false, nextBreak]
    rw [switchMode_idle _ _ (by simp)]
    simp [duration]

/-- What `completeSession` does outside work mode. -/
theorem completeSession_break (s : PomodoroTimer) (hmode : s.currentMode ≠ Mode.work) :
    completeSession s = showNotification
      { playAlertSound (pause s) with
        currentMode := Mode.work
        timeRemaining := s.workDuration } := by
  unfold completeSession
  simp only [playAlertSound, pause_currentMode, hmode, if_false]
  rw [switchMode_idle _ _ (by simp)]
  simp [duration]

/-- One work-session completion: the count grows, the cadence stays and the break
is chosen by `nextBreak`. -/
theorem completeSession_work_fields (s : PomodoroTimer) (n : Int) (hn : n ≠ 0)
    (hmode : s.currentMode = Mode.work) (hcad : s.sessionsBeforeLongBreak = JSNum.int n) :
    (completeSession s).sessionCount = s.sessionCount + 1 ∧
    (completeSession s).sessionsBeforeLongBreak = JSNum.int n ∧
    (completeSession s).currentMode = nextBreak (s.sessionCount + 1) n ∧
    (completeSession s).isRunning = false ∧
    (completeSession s).timeRemaining = duration s (nextBreak (s.sessionCount + 1) n) := by
  rw [completeSession_work s n hn hmode hcad]
  simp [playAlertSound, hcad]

/-- One break completion: back to work, count and cadence as before. -/
theorem completeSession_break_fields (s : PomodoroTimer) (hmode : s.currentMode ≠ Mode.work) :
    (completeSession s).sessionCount = s.sessionCount ∧
    (completeSession s).sessionsBeforeLongBreak = s.sessionsBeforeLongBreak ∧
    (completeSession s).currentMode = Mode.work ∧
    (completeSession s).isRunning = false ∧
    (completeSession s).timeRemaining = s.workDuration := by
  rw [completeSession_break s hmode]
  simp [playAlertSound]

theorem nextBreak_ne_work (k n : Int) : nextBreak k n ≠ Mode.work := by
  unfold nextBreak; split <;> simp

@[simp] theorem completions_showNotification (s : PomodoroTimer) :
    completions (showNotification s) = completions s := by
  unfold showNotification completions
  split
  · simp
  · split <;> simp

@[simp] theorem completeSession_isRunning (s : PomodoroTimer) :
    (completeSession s).isRunning = false := by
  unfold completeSession
  simp only [showNotification_isRunning]
  split
  · split <;> (rw [switchMode_idle _ _ (by simp [playAlertSound])]; simp [playAlertSound])
  · rw [switchMode_idle _ _ (by simp [playAlertSound])]; simp [playAlertSound]

theorem completions_switchMode (m : Mode) (s : PomodoroTimer) :
    completions (switchMode m s) = completions s := by
  unfold switchMode
  split
  · rfl
  · cases m <;> rfl

theorem completeSession_completions (s : PomodoroTimer) :
    completions (completeSession s) = completions s + 1 := by
  unfold completeSession
  simp only [completions_showNotification]
  split
  · split <;> (rw [completions_switchMode]; simp [completions, playAlertSound])
  · rw [completions_switchMode]; simp [completions, playAlertSound]

/-- In work mode `completeSession` counts the session and enters a break, whatever
the cadence setting holds. -/
theorem completeSession_from_work (s : PomodoroTimer) (hmode : s.currentMode = Mode.work) :
    (completeSession s).sessionCount = s.sessionCount + 1 ∧
    ((completeSession s).currentMode = Mode.longBreak ∨
      (completeSession s).currentMode = Mode.shortBreak) := by
  unfold completeSession
  simp only [showNotification_sessionCount, showNotification_currentMode, playAlertSound,
    pause_currentMode, hmode, if_true]
  split <;> (rw [switchMode_idle _ _ (by simp)]; simp)

/-- While more than one second remains each tick only decrements `timeRemaining`. -/
theorem ticks_before_completion (s0 : PomodoroTimer) (D : Int)
    (h : s0.timeRemaining = JSNum.int D) :
    ∀ k : Nat, (k : Int) < D → tick^[k] s0 = { s0 with timeRemaining := JSNum.int (D - k) } := by
  intro k
  induction k with
  | zero =>
    intro _
    cases s0
    simp only [Function.iterate_zero, id_eq] at *
    simp [h]
  | succ k ih =>
    intro hk
    have hk1 : (k : Int) < D := by push_cast at hk; omega
    rw [Function.iterate_succ_apply', ih hk1]
    have hgt : ¬ (D - ((k + 1 : Nat) : Int) ≤ 0) := by omega
    have hsub : D - (k : Int) - 1 = D - ((k + 1 : Nat) : Int) := by push_cast; ring
    simp only [tick, JSNum.dec, JSNum.le, hsub, hgt, decide_False, Bool.false_eq_true, if_false]

/-- The tick that finds one second remaining runs `completeSession` on the state
with zero remaining. -/
theorem tick_last (s : PomodoroTimer) (h : s.timeRemaining = JSNum.int 1) :
    tick s = completeSession { s with timeRemaining := JSNum.int 0 } := by
  simp [tick, h, JSNum.dec, JSNum.le]

theorem completeSession_sessionCount (s : PomodoroTimer) :
    (completeSession s).sessionCount =
      if s.currentMode = Mode.work then s.sessionCount + 1 else s.sessionCount := by
  by_cases h : s.currentMode = Mode.work
  · rw [(completeSession_from_work s h).1, if_pos h]
  · rw [(completeSession_break_fields s h).1, if_neg h]

@[simp] theorem switchMode_sessionCount (m : Mode) (s : PomodoroTimer) :
    (switchMode m s).sessionCount = s.sessionCount := by
  unfold switchMode
  split
  · rfl
  · cases m <;> rfl

@[simp] theorem start_sessionCount (s : PomodoroTimer) :
    (start s).sessionCount = s.sessionCount := by
  unfold start; split <;> rfl

@[simp] theorem start_effects (s : PomodoroTimer) : (start s).effects = s.effects := by
  unfold start; split <;> rfl

/-- Method `reset` in one equation: pause, then the full duration of the current
mode (nothing more for an unnamed mode). -/
theorem reset_eq (s : PomodoroTimer) :
    reset s = { pause s with timeRemaining :=
      if s.currentMode = Mode.other then s.timeRemaining else duration s s.currentMode } := by
  obtain ⟨w, b, l, n, mode, t, running, id, c, live, nh, sup, perm, eff⟩ := s
  cases running <;> cases mode <;> simp [reset, pause, duration]

@[simp] theorem reset_sessionCount (s : PomodoroTimer) :
    (reset s).sessionCount = s.sessionCount := by
  rw [reset_eq]; simp

@[simp] theorem reset_effects (s : PomodoroTimer) : (reset s).effects = s.effects := by
  rw [reset_eq]; simp

@[simp] theorem saveSettings_sessionCount (w b l n : JSNum) (s : PomodoroTimer) :
    (saveSettings w b l n s).sessionCount = s.sessionCount := by
  unfold saveSettings
  repeat (split; · rfl)
  simp only []
  split <;> simp

theorem completions_saveSettings (w b l n : JSNum) (s : PomodoroTimer) :
    completions (saveSettings w b l n s) = completions s := by
  unfold saveSettings
  repeat (split; · simp [completions, alert])
  simp only []
  split <;> simp [completions]

/-- What one tick does to the session count and to the number of completions. -/
theorem tick_count (s : PomodoroTimer) :
    (completions (tick s) = completions s ∧ (tick s).sessionCount = s.sessionCount) ∨
    (completions (tick s) = completions s + 1 ∧
      (tick s).sessionCount =
        if s.currentMode = Mode.work then s.sessionCount + 1 else s.sessionCount) := by
  unfold tick
  simp only
  split
  · right
    rw [completeSession_completions, completeSession_sessionCount]
    exact ⟨rfl, rfl⟩
  · left
    exact ⟨rfl, rfl⟩

theorem within_iff (lo hi : Int) (x : JSNum) :
    x.within lo hi = true ↔ ∃ k : Int, x = JSNum.int k ∧ lo ≤ k ∧ k ≤ hi := by
  cases x with
  | nan => simp [JSNum.within]
  | int k => simp [JSNum.within]

/-- In-bounds values pass the four checks: the settings are stored and assigned, and
the timer is reset unless it is running. -/
theorem saveSettings_accepted (w b l n : JSNum) (s : PomodoroTimer)
    (h : inBounds w b l n = true) :
    saveSettings w b l n s =
      if s.isRunning then withSettings w b l n s else reset (withSettings w b l n s) := by
  simp only [inBounds, Bool.and_eq_true, within_iff] at h
  obtain ⟨⟨⟨⟨a, rfl, ha1, ha2⟩, ⟨b, rfl, hb1, hb2⟩⟩, ⟨c, rfl, hc1, hc2⟩⟩, ⟨d, rfl, hd1, hd2⟩⟩ := h
  have e1 : ¬ a < 1 := by omega
  have e2 : ¬ a > 60 := by omega
  have e3 : ¬ b < 1 := by omega
  have e4 : ¬ b > 30 := by omega
  have e5 : ¬ c < 1 := by omega
  have e6 : ¬ c > 60 := by omega
  have e7 : ¬ d < 1 := by omega
  have e8 : ¬ d > 10 := by omega
  cases hr : s.isRunning <;>
    simp [saveSettings, withSettings, JSNum.lt, JSNum.gt, e1, e2, e3, e4, e5, e6, e7, e8, hr]

/-- Consistency only looks at the running flag, the held handle and the live
intervals. -/
theorem consistent_of_fields (s t : PomodoroTimer) (h1 : t.isRunning = s.isRunning)
    (h2 : t.intervalId = s.intervalId) (h3 : t.liveIntervals = s.liveIntervals)
    (hc : Consistent s) : Consistent t := by
  unfold Consistent at *
  rw [h1, h2, h3]
  exact hc

theorem switchMode_timer_fields (m : Mode) (s : PomodoroTimer) :
    (switchMode m s).isRunning = s.isRunning ∧ (switchMode m s).intervalId = s.intervalId ∧
    (switchMode m s).liveIntervals = s.liveIntervals := by
  unfold switchMode
  split
  · exact ⟨rfl, rfl, rfl⟩
  · cases m <;> exact ⟨rfl, rfl, rfl⟩

theorem consistent_pause (s : PomodoroTimer) (hc : Consistent s) :
    Consistent (pause s) ∧ (pause s).liveIntervals = [] := by
  unfold Consistent at hc
  cases hr : s.isRunning
  · simp only [hr, Bool.false_eq_true, if_false] at hc
    have hp : pause s = s := by simp [pause, hr]
    rw [hp]
    exact ⟨by simp [Consistent, hr, hc], hc⟩
  · simp only [hr, if_true] at hc
    obtain ⟨hl, hid⟩ := hc
    obtain ⟨h, hh⟩ := Option.ne_none_iff_exists'.mp hid
    have hlive : (pause s).liveIntervals = [] := by
      simp [pause, hr, clearInterval, hl, hh]
    exact ⟨by simp [Consistent, hlive], hlive⟩

theorem consistent_completeSession (s : PomodoroTimer) (hc : Consistent s) :
    Consistent (completeSession s) := by
  have hp := (consistent_pause s hc).1
  have ha : Consistent (playAlertSound (pause s)) :=
    consistent_of_fields _ _ rfl rfl rfl hp
  unfold completeSession
  simp only []
  refine consistent_of_fields _ _ (showNotification_isRunning _) (showNotification_intervalId _)
    (showNotification_liveIntervals _) ?_
  split
  · split
    · obtain ⟨a, b, c⟩ := switchMode_timer_fields Mode.longBreak
        { playAlertSound (pause s) with sessionCount := (playAlertSound (pause s)).sessionCount + 1 }
      exact consistent_of_fields _ _ a b c (consistent_of_fields _ _ rfl rfl rfl ha)
    · obtain ⟨a, b, c⟩ := switchMode_timer_fields Mode.shortBreak
        { playAlertSound (pause s) with sessionCount := (playAlertSound (pause s)).sessionCount + 1 }
      exact consistent_of_fields _ _ a b c (consistent_of_fields _ _ rfl rfl rfl ha)
  · obtain ⟨a, b, c⟩ := switchMode_timer_fields Mode.work (playAlertSound (pause s))
    exact consistent_of_fields _ _ a b c ha

theorem consistent_reset (s : PomodoroTimer) (hc : Consistent s) : Consistent (reset s) := by
  rw [reset_eq]
  exact consistent_of_fields _ _ rfl rfl rfl (consistent_pause s hc).1

/-- Every operation keeps the running flag and the timer queue in agreement. -/
theorem consistent_apply (op : Op) (s : PomodoroTimer) (hc : Consistent s) :
    Consistent (op.apply s) := by
  cases op with
  | switchMode m =>
    obtain ⟨a, b, c⟩ := switchMode_timer_fields m s
    exact consistent_of_fields _ _ a b c hc
  | start =>
    simp only [Op.apply, start]
    split
    · exact hc
    · rename_i hr
      have hl : s.liveIntervals = [] := by
        unfold Consistent at hc
        simpa [hr] using hc
      simp [Consistent, hl]
  | tick =>
    simp only [Op.apply, intervalFires, tick]
    split
    · exact hc
    · split
      · exact consistent_completeSession _ (consistent_of_fields _ _ rfl rfl rfl hc)
      · exact consistent_of_fields _ _ rfl rfl rfl hc
  | pause => exact (consistent_pause s hc).1
  | reset => exact consistent_reset s hc
  | completeSession => exact consistent_completeSession s hc
  | saveSettings w b l n =>
    simp only [Op.apply, saveSettings]
    repeat (split; · exact consistent_of_fields _ _ rfl rfl rfl hc)
    split
    · exact consistent_reset _ (consistent_of_fields _ _ rfl rfl rfl hc)
    · exact consistent_of_fields _ _ rfl rfl rfl hc

@[simp] theorem duration_showNotification (s : PomodoroTimer) (m : Mode) :
    duration (showNotification s) m = duration s m := by
  cases m <;> simp [duration]

/-- Every `completeSession` leaves a named mode with its full duration
remaining, the settings untouched. -/
theorem completeSession_refills (s : PomodoroTimer) :
    SameDurations s (completeSession s) ∧ (completeSession s).currentMode ≠ Mode.other ∧
    (completeSession s).timeRemaining =
      duration (completeSession s) (completeSession s).currentMode := by
  unfold completeSession SameDurations
  simp only [showNotification_workDuration, showNotification_shortBreakDuration,
    showNotification_longBreakDuration, showNotification_currentMode,
    showNotification_timeRemaining, duration_showNotification]
  split
  · split <;> (rw [switchMode_idle _ _ (by simp [playAlertSound])]; simp [playAlertSound, duration])
  · rw [switchMode_idle _ _ (by simp [playAlertSound])]; simp [playAlertSound, duration]

/-- The outcome of every admissible operation from a state in a named mode. -/
theorem apply_outcome (op : Op) (s : PomodoroTimer) (hadm : op.admissible = true)
    (hnamed : s.currentMode ≠ Mode.other) : Outcome op s (op.apply s) := by
  cases op with
  | switchMode m =>
    have hm : m ≠ Mode.other := by simpa [Op.admissible, Mode.named] using hadm
    cases hr : s.isRunning
    · right; left
      simp only [Op.apply]
      rw [switchMode_idle m s hr]
      refine ⟨Or.inl ⟨rfl, rfl, rfl⟩, hm, ?_⟩
      cases m <;> simp [duration] at hm ⊢
    · left
      simp [Op.apply, switchMode, hr, SameDurations]
  | start =>
    left
    simp only [Op.apply, start]
    split <;> exact ⟨⟨rfl, rfl, rfl⟩, rfl, rfl⟩
  | tick =>
    simp only [Op.apply, intervalFires]
    split
    · left; exact ⟨⟨rfl, rfl, rfl⟩, rfl, rfl⟩
    · cases ht : s.timeRemaining with
      | nan =>
        left
        simp [tick, ht, JSNum.dec, JSNum.le, SameDurations]
      | int r =>
        by_cases hle : r - 1 ≤ 0
        · right; left
          have htick : tick s = completeSession { s with timeRemaining := JSNum.int (r - 1) } := by
            simp [tick, ht, JSNum.dec, JSNum.le, hle]
          rw [htick]
          obtain ⟨hd, hm, htr⟩ := completeSession_refills { s with timeRemaining := JSNum.int (r - 1) }
          exact ⟨Or.inl hd, hm, htr⟩
        · right; right; left
          have htick : tick s = { s with timeRemaining := JSNum.int (r - 1) } := by
            simp [tick, ht, JSNum.dec, JSNum.le, hle]
          rw [htick]
          exact ⟨⟨rfl, rfl, rfl⟩, rfl, r, ht, by omega, rfl⟩
  | pause =>
    left
    simp [Op.apply, SameDurations]
  | reset =>
    right; left
    simp only [Op.apply]
    rw [reset_eq]
    refine ⟨Or.inl ?_, by simpa using hnamed, ?_⟩
    · simp [SameDurations]
    · cases hm : s.currentMode <;> simp [duration, hm] at hnamed ⊢
  | completeSession =>
    right; left
    obtain ⟨hd, hm, htr⟩ := completeSession_refills s
    exact ⟨Or.inl hd, hm, htr⟩
  | saveSettings w b l n =>
    have hb : inBounds w b l n = true := hadm
    have hmin : ∀ t : PomodoroTimer, t.workDuration = w.mul (JSNum.int 60) →
        t.shortBreakDuration = b.mul (JSNum.int 60) →
        t.longBreakDuration = l.mul (JSNum.int 60) → MinuteDurations t := by
      intro t h1 h2 h3
      simp only [inBounds, Bool.and_eq_true, within_iff] at hb
      obtain ⟨⟨⟨⟨a, rfl, ha1, -⟩, ⟨b, rfl, hb1, -⟩⟩, ⟨c, rfl, hc1, -⟩⟩, -⟩ := hb
      exact ⟨a, b, c, ha1, hb1, hc1, h1, h2, h3⟩
    simp only [Op.apply]
    rw [saveSettings_accepted w b l n s hb]
    cases hr : s.isRunning
    · right; left
      simp only [Bool.false_eq_true, if_false]
      rw [reset_eq]
      refine ⟨Or.inr (hmin _ ?_ ?_ ?_), ?_, ?_⟩
      · simp [withSettings]
      · simp [withSettings]
      · simp [withSettings]
      · simpa [withSettings] using hnamed
      · cases hm : s.currentMode <;> simp [duration, withSettings, hm] at hnamed ⊢
    · right; right; right
      simp only [if_true]
      exact ⟨rfl, hr, hmin _ rfl rfl rfl, rfl, rfl⟩

theorem getTotalTime_eq_duration (s : PomodoroTimer) :
    getTotalTimeForCurrentMode s = duration s s.currentMode := by
  unfold getTotalTimeForCurrentMode duration
  cases s.currentMode <;> rfl

theorem duration_of_same (s t : PomodoroTimer) (h : SameDurations s t) (m : Mode) :
    duration t m = duration s m := by
  obtain ⟨h1, h2, h3⟩ := h
  cases m <;> simp [duration, h1, h2, h3]

theorem duration_of_minutes (t : PomodoroTimer) (h : MinuteDurations t) (m : Mode) :
    ∃ d : Int, duration t m = JSNum.int d ∧ 0 < d := by
  obtain ⟨a, b, c, ha, hb, hc, h1, h2, h3⟩ := h
  cases m
  · exact ⟨a * 60, h1, by omega⟩
  · exact ⟨b * 60, h2, by omega⟩
  · exact ⟨c * 60, h3, by omega⟩
  · exact ⟨a * 60, h1, by omega⟩

/-- An operation that is not a save under a running countdown keeps
`WithinDuration`. -/
theorem withinDuration_step (op : Op) (s t : PomodoroTimer) (hout : Outcome op s t)
    (hidle : op.isSave = true → s.isRunning = false) (hinv : WithinDuration s) :
    WithinDuration t := by
  obtain ⟨hnamed, hint, hle⟩ := hinv
  rcases hout with ⟨hd, hm, ht⟩ | ⟨hd, hm, ht⟩ | ⟨hd, hm, r, hr, -, ht⟩ | ⟨hs, hrun, -⟩
  · refine ⟨by rw [hm]; exact hnamed, fun m => ?_, ?_⟩
    · rw [duration_of_same s t hd]; exact hint m
    · rw [ht, hm, duration_of_same s t hd]; exact hle
  · have hint2 : ∀ m : Mode, ∃ d : Int, duration t m = JSNum.int d := by
      intro m
      rcases hd with hd | hd
      · rw [duration_of_same s t hd]; exact hint m
      · obtain ⟨d, h, -⟩ := duration_of_minutes t hd m
        exact ⟨d, h⟩
    refine ⟨hm, hint2, ?_⟩
    obtain ⟨d, h⟩ := hint2 t.currentMode
    rw [ht, h]
    simp [JSNum.le]
  · refine ⟨by rw [hm]; exact hnamed, fun m => ?_, ?_⟩
    · rw [duration_of_same s t hd]; exact hint m
    · rw [ht, hm, duration_of_same s t hd]
      obtain ⟨d, h⟩ := hint s.currentMode
      rw [hr, h] at hle
      rw [h]
      simp only [JSNum.le, decide_eq_true_eq] at hle ⊢
      omega
  · rw [hidle hs] at hrun
    exact absurd hrun (by decide)

/-- Every admissible operation keeps `PositiveCountdown`. -/
theorem positiveCountdown_step (op : Op) (s t : PomodoroTimer) (hout : Outcome op s t)
    (hinv : PositiveCountdown s) : PositiveCountdown t := by
  obtain ⟨hnamed, hpos, r0, hr0, hr1⟩ := hinv
  rcases hout with ⟨hd, hm, ht⟩ | ⟨hd, hm, ht⟩ | ⟨hd, hm, r, hr, hr2, ht⟩ | ⟨-, -, hd, hm, ht⟩
  · refine ⟨by rw [hm]; exact hnamed, fun m => ?_, r0, by rw [ht]; exact hr0, hr1⟩
    rw [duration_of_same s t hd]; exact hpos m
  · have hpos2 : ∀ m : Mode, ∃ d : Int, duration t m = JSNum.int d ∧ 0 < d := by
      intro m
      rcases hd with hd | hd
      · rw [duration_of_same s t hd]; exact hpos m
      · exact duration_of_minutes t hd m
    obtain ⟨d, h, hdpos⟩ := hpos2 t.currentMode
    exact ⟨hm, hpos2, d, by rw [ht, h], by omega⟩
  · refine ⟨by rw [hm]; exact hnamed, fun m => ?_, r - 1, ht, hr2⟩
    rw [duration_of_same s t hd]; exact hpos m
  · exact ⟨by rw [hm]; exact hnamed, duration_of_minutes t hd, r0, by rw [ht]; exact hr0, hr1⟩

theorem withinDuration_initial (s0 : PomodoroTimer) (h0 : IsInitial s0) :
    WithinDuration s0 := by
  obtain ⟨hm, ht, -, -, -, w, b, l, hw, hb, hl⟩ := h0
  refine ⟨by rw [hm]; decide, fun m => ?_, ?_⟩
  · cases m
    · exact ⟨w, hw⟩
    · exact ⟨b, hb⟩
    · exact ⟨l, hl⟩
    · exact ⟨w, hw⟩
  · rw [ht, hm]
    simp [duration, hw, JSNum.le]

theorem positiveCountdown_initial (s0 : PomodoroTimer) (h0 : IsInitial s0)
    (hpos : PositiveDurations s0) : PositiveCountdown s0 := by
  obtain ⟨hm, ht, -⟩ := h0
  obtain ⟨w, b, l, hw0, hb0, hl0, hw, hb, hl⟩ := hpos
  refine ⟨by rw [hm]; decide, fun m => ?_, w, by rw [ht, hw], by omega⟩
  cases m
  · exact ⟨w, hw, hw0⟩
  · exact ⟨b, hb, hb0⟩
  · exact ⟨l, hl, hl0⟩
  · exact ⟨w, hw, hw0⟩

theorem withinDuration_reachable (s0 s : PomodoroTimer) (h0 : IsInitial s0)
    (hr : ReachableIdleSave s0 s) : WithinDuration s := by
  induction hr with
  | initial => exact withinDuration_initial s0 h0
  | step op s _ hadm hidle ih =>
    exact withinDuration_step op s _ (apply_outcome op s hadm ih.1) hidle ih

theorem positiveCountdown_reachable (s0 s : PomodoroTimer) (h0 : IsInitial s0)
    (hpos : PositiveDurations s0) (hr : Reachable s0 s) : PositiveCountdown s := by
  induction hr with
  | initial => exact positiveCountdown_initial s0 h0 hpos
  | step op s _ hadm ih =>
    exact positiveCountdown_step op s _ (apply_outcome op s hadm ih.1) ih

theorem reachable_of_idleSave (s0 s : PomodoroTimer) (hr : ReachableIdleSave s0 s) :
    Reachable s0 s := by
  induction hr with
  | initial => exact Reachable.initial
  | step op s _ hadm _ ih => exact Reachable.step op s ih hadm

theorem progress_of (s : PomodoroTimer) (d r : Int)
    (hT : getTotalTimeForCurrentMode s = JSNum.int d) (hr : s.timeRemaining = JSNum.int r)
    (hd : d ≠ 0) : progress s = some (((d - r : Int) : ℚ) / (d : ℚ)) := by
  simp [progress, hT, hr, hd]

theorem initial_newTimer (sup : Bool) (perm : Permission) :
    IsInitial (newTimer sup perm none) ∧ PositiveDurations (newTimer sup perm none) :=
  ⟨⟨rfl, rfl, rfl, rfl, rfl, 1500, 300, 900, rfl, rfl, rfl⟩,
    ⟨1500, 300, 900, by decide, by decide, by decide, rfl, rfl, rfl⟩⟩

/-- Integer values of which one is out of bounds are rejected with a dialog and
nothing else happens. -/
theorem saveSettings_rejects_integers (a b c d : Int) (s : PomodoroTimer)
    (h : inBounds (JSNum.int a) (JSNum.int b) (JSNum.int c) (JSNum.int d) = false) :
    ∃ msg : String, saveSettings (JSNum.int a) (JSNum.int b) (JSNum.int c) (JSNum.int d) s =
      alert msg s := by
  unfold saveSettings
  split
  · exact ⟨_, rfl⟩
  split
  · exact ⟨_, rfl⟩
  split
  · exact ⟨_, rfl⟩
  split
  · exact ⟨_, rfl⟩
  rename_i h1 h2 h3 h4
  exfalso
  simp only [JSNum.lt, JSNum.gt, Bool.or_eq_true, decide_eq_true_eq, not_or, not_lt] at h1 h2 h3 h4
  have : inBounds (JSNum.int a) (JSNum.int b) (JSNum.int c) (JSNum.int d) = true := by
    simp only [inBounds, JSNum.within, Bool.and_eq_true, decide_eq_true_eq]
    omega
  rw [this] at h
  exact absurd h (by decide)

/-! ## The claims -/

/-- C3: `switchMode(m)` for a named mode `m`: when the timer is not running the
result is the input with `currentMode` set to `m` and `timeRemaining` set to the
duration configured for `m`, every other field (running flag, session count,
settings) as before; when the timer is running the result is the input. -/
theorem switchMode_spec (m : Mode) (s : PomodoroTimer) (hm : m.named = true) :
    (s.isRunning = false →
      switchMode m s = { s with currentMode := m, timeRemaining := duration s m }) ∧
    (s.isRunning = true → switchMode m s = s) := by
  constructor
  · intro h
    exact switchMode_named_idle m s hm h
  · intro h
    simp [switchMode, h]

/-- C3 at the stock timer: switching an idle timer to the long break. -/
theorem switchMode_spec_witness :
    Mode.named Mode.longBreak = true ∧
    ((newTimer true Permission.granted none).isRunning = false →
      switchMode Mode.longBreak (newTimer true Permission.granted none) =
        { newTimer true Permission.granted none with
          currentMode := Mode.longBreak
          timeRemaining := duration (newTimer true Permission.granted none) Mode.longBreak }) ∧
    ((newTimer true Permission.granted none).isRunning = true →
      switchMode Mode.longBreak (newTimer true Permission.granted none) =
        newTimer true Permission.granted none) :=
  ⟨by decide, switchMode_spec Mode.longBreak (newTimer true Permission.granted none) (by decide)⟩

/-- C1: long-break cadence. With `sessionsBeforeLongBreak = N >= 1`, in work mode
with `sessionCount = K - 1` (`K >= 1`), `completeSession` leaves `sessionCount = K`
and `isRunning = false`, enters `longBreak` exactly when `K mod N = 0` and
`shortBreak` otherwise, and sets `timeRemaining` to the duration of that break.
Consequently, from `sessionCount = 0` with `N = 4`, four work sessions, each
followed by its break running to completion, are followed by `shortBreak`,
`shortBreak`, `shortBreak`, `longBreak`, and the count ends at 4. -/
theorem completeSession_cadence (N K : Int) (s : PomodoroTimer)
    (hN : 1 ≤ N) (hK : 1 ≤ K) (hmode : s.currentMode = Mode.work)
    (hcad : s.sessionsBeforeLongBreak = JSNum.int N) (hcount : s.sessionCount = K - 1) :
    ((completeSession s).sessionCount = K ∧ (completeSession s).isRunning = false ∧
      ((completeSession s).currentMode = Mode.longBreak ↔ K % N = 0) ∧
      (K % N ≠ 0 → (completeSession s).currentMode = Mode.shortBreak) ∧
      (completeSession s).timeRemaining = duration s (completeSession s).currentMode) ∧
    (N = 4 → K = 1 →
      (completeSession^[1] s).currentMode = Mode.shortBreak ∧
      (completeSession^[2] s).currentMode = Mode.work ∧
      (completeSession^[3] s).currentMode = Mode.shortBreak ∧
      (completeSession^[4] s).currentMode = Mode.work ∧
      (completeSession^[5] s).currentMode = Mode.shortBreak ∧
      (completeSession^[6] s).currentMode = Mode.work ∧
      (completeSession^[7] s).currentMode = Mode.longBreak ∧
      (completeSession^[7] s).sessionCount = 4) := by
  have hN0 : N ≠ 0 := by omega
  obtain ⟨h1, -, h3, h4, h5⟩ := completeSession_work_fields s N hN0 hmode hcad
  have hK1 : s.sessionCount + 1 = K := by omega
  rw [hK1] at h1 h3 h5
  refine ⟨⟨h1, h4, ?_, ?_, ?_⟩, ?_⟩
  · rw [h3]; unfold nextBreak; split <;> simp [*]
  · intro hk; rw [h3]; unfold nextBreak; simp [hk]
  · rw [h5, h3]
  · intro hN4 hK1
    subst hN4; subst hK1
    have hb1 := nextBreak_ne_work 1 4
    rw [← h3] at hb1
    obtain ⟨c2, n2, m2, -, -⟩ := completeSession_break_fields _ hb1
    rw [h1] at c2
    obtain ⟨c3, n3, m3, -, -⟩ := completeSession_work_fields _ 4 (by decide) m2 (n2.trans
      (completeSession_work_fields s 4 hN0 hmode hcad).2.1)
    rw [c2] at c3 m3
    have hb3 := nextBreak_ne_work (1 + 1) 4
    rw [← m3] at hb3
    obtain ⟨c4, n4, m4, -, -⟩ := completeSession_break_fields _ hb3
    rw [c3] at c4
    obtain ⟨c5, n5, m5, -, -⟩ := completeSession_work_fields _ 4 (by decide) m4 (n4.trans n3)
    rw [c4] at c5 m5
    have hb5 := nextBreak_ne_work (1 + 1 + 1) 4
    rw [← m5] at hb5
    obtain ⟨c6, n6, m6, -, -⟩ := completeSession_break_fields _ hb5
    rw [c5] at c6
    obtain ⟨c7, -, m7, -, -⟩ := completeSession_work_fields _ 4 (by decide) m6 (n6.trans n5)
    rw [c6] at c7 m7
    simp only [Function.iterate_succ, Function.iterate_zero, Function.comp_apply, id_eq]
    refine ⟨?_, m2, ?_, m4, ?_, m6, ?_, ?_⟩
    · rw [h3]; decide
    · rw [m3]; decide
    · rw [m5]; decide
    · rw [m7]; decide
    · rw [c7]; norm_num

/-- C1 at the stock timer: the first completed work session (`N = 4`, `K = 1`). -/
theorem completeSession_cadence_witness :
    ((completeSession (newTimer true Permission.granted none)).sessionCount = 1 ∧
      (completeSession (newTimer true Permission.granted none)).isRunning = false ∧
      ((completeSession (newTimer true Permission.granted none)).currentMode = Mode.longBreak ↔
        (1 : Int) % 4 = 0) ∧
      ((1 : Int) % 4 ≠ 0 →
        (completeSession (newTimer true Permission.granted none)).currentMode = Mode.shortBreak) ∧
      (completeSession (newTimer true Permission.granted none)).timeRemaining =
        duration (newTimer true Permission.granted none)
          (completeSession (newTimer true Permission.granted none)).currentMode) ∧
    ((4 : Int) = 4 → (1 : Int) = 1 →
      (completeSession^[1] (newTimer true Permission.granted none)).currentMode = Mode.shortBreak ∧
      (completeSession^[2] (newTimer true Permission.granted none)).currentMode = Mode.work ∧
      (completeSession^[3] (newTimer true Permission.granted none)).currentMode = Mode.shortBreak ∧
      (completeSession^[4] (newTimer true Permission.granted none)).currentMode = Mode.work ∧
      (completeSession^[5] (newTimer true Permission.granted none)).currentMode = Mode.shortBreak ∧
      (completeSession^[6] (newTimer true Permission.granted none)).currentMode = Mode.work ∧
      (completeSession^[7] (newTimer true Permission.granted none)).currentMode = Mode.longBreak ∧
      (completeSession^[7] (newTimer true Permission.granted none)).sessionCount = 4) :=
  completeSession_cadence 4 1 (newTimer true Permission.granted none)
    (by decide) (by decide) rfl rfl rfl

/-- C2: countdown to completion. For a named mode `m` whose duration is `D >= 1`,
from the idle state given by `switchMode(m)` followed by `start()`: after `k < D`
ticks `timeRemaining = D - k`, the timer is running, mode and `sessionCount` are as
before and no `completeSession` has run; the `D`-th tick runs `completeSession`
exactly once, leaving `isRunning = false` and a different mode (for `m = work`
with `sessionsBeforeLongBreak > 1` and `sessionCount = 0`: mode `shortBreak` and
`sessionCount = 1`). -/
theorem countdown_to_completion (m : Mode) (D : Nat) (s : PomodoroTimer)
    (hm : m.named = true) (hidle : s.isRunning = false)
    (hD : duration s m = JSNum.int (D : Int)) (hpos : 1 ≤ D) :
    (∀ k : Nat, k < D →
      (tick^[k] (start (switchMode m s))).timeRemaining = JSNum.int ((D : Int) - (k : Int)) ∧
      (tick^[k] (start (switchMode m s))).isRunning = true ∧
      (tick^[k] (start (switchMode m s))).currentMode = m ∧
      (tick^[k] (start (switchMode m s))).sessionCount = s.sessionCount ∧
      completions (tick^[k] (start (switchMode m s))) = completions s) ∧
    completions (tick^[D] (start (switchMode m s))) = completions s + 1 ∧
    (tick^[D] (start (switchMode m s))).isRunning = false ∧
    (tick^[D] (start (switchMode m s))).currentMode ≠ m ∧
    (m = Mode.work → s.sessionCount = 0 →
      ∀ N : Int, 1 < N → s.sessionsBeforeLongBreak = JSNum.int N →
        (tick^[D] (start (switchMode m s))).currentMode = Mode.shortBreak ∧
        (tick^[D] (start (switchMode m s))).sessionCount = 1) := by
  have hs0 : start (switchMode m s) =
      { s with
        currentMode := m
        timeRemaining := JSNum.int (D : Int)
        isRunning := true
        intervalId := some s.nextHandle
        liveIntervals := s.nextHandle :: s.liveIntervals
        nextHandle := s.nextHandle + 1 } := by
    rw [switchMode_named_idle m s hm hidle, hD]
    simp [start, hidle]
  have hbefore := ticks_before_completion (start (switchMode m s)) (D : Int) (by rw [hs0])
  have hlast : tick^[D] (start (switchMode m s)) =
      completeSession { start (switchMode m s) with timeRemaining := JSNum.int 0 } := by
    obtain ⟨n, rfl⟩ : ∃ n, D = n + 1 := ⟨D - 1, by omega⟩
    rw [Function.iterate_succ_apply', hbefore n (by push_cast; omega), tick_last _ (by
      simp only [JSNum.int.injEq]; push_cast; omega)]
  refine ⟨?_, ?_, ?_, ?_, ?_⟩
  · intro k hk
    rw [hbefore k (by exact_mod_cast hk), hs0]
    simp [completions]
  · rw [hlast, completeSession_completions, hs0]
    simp [completions]
  · rw [hlast]; simp
  · rw [hlast]
    by_cases hw : m = Mode.work
    · obtain ⟨-, hmode⟩ := completeSession_from_work
        { start (switchMode m s) with timeRemaining := JSNum.int 0 } (by rw [hs0]; exact hw)
      rcases hmode with h | h <;> rw [h, hw] <;> decide
    · rw [(completeSession_break_fields _ (by rw [hs0]; exact hw)).2.2.1]
      exact fun h => hw h.symm
  · intro hw hcount N hN hcad
    rw [hlast]
    obtain ⟨c, -, md, -, -⟩ := completeSession_work_fields
      { start (switchMode m s) with timeRemaining := JSNum.int 0 } N (by omega)
      (by rw [hs0]; exact hw) (by rw [hs0]; exact hcad)
    rw [c, md, hs0]
    simp only [hcount, zero_add, nextBreak, Int.emod_eq_of_lt (by decide : (0 : Int) ≤ 1) hN]
    simp

/-- C2 at the stock timer (work duration 1500): 1499 ticks leave one second, the
1500th completes the session. -/
theorem countdown_to_completion_witness :
    ((tick^[1499] (start (switchMode Mode.work (newTimer true Permission.granted none)))).timeRemaining
        = JSNum.int 1 ∧
      (tick^[1499] (start (switchMode Mode.work (newTimer true Permission.granted none)))).isRunning
        = true ∧
      (tick^[1499] (start (switchMode Mode.work (newTimer true Permission.granted none)))).sessionCount
        = 0) ∧
    (tick^[1500] (start (switchMode Mode.work (newTimer true Permission.granted none)))).isRunning
      = false ∧
    (tick^[1500] (start (switchMode Mode.work (newTimer true Permission.granted none)))).currentMode
      = Mode.shortBreak ∧
    (tick^[1500] (start (switchMode Mode.work (newTimer true Permission.granted none)))).sessionCount
      = 1 ∧
    completions (tick^[1500] (start (switchMode Mode.work (newTimer true Permission.granted none))))
      = 1 := by
  have h := countdown_to_completion Mode.work 1500 (newTimer true Permission.granted none)
    (by decide) rfl rfl (by decide)
  obtain ⟨h1, h2, h3, -, h5⟩ := h
  obtain ⟨a, b, -, d, -⟩ := h1 1499 (by decide)
  obtain ⟨e, f⟩ := h5 rfl rfl 4 (by decide) rfl
  have hone : ((1500 : Nat) : Int) - ((1499 : Nat) : Int) = 1 := by norm_num
  rw [hone] at a
  exact ⟨⟨a, b, d⟩, h3, e, f, h2⟩

/-- C6: `sessionCount` never decreases. For every state and every operation
(`switchMode`, `start`, a delivered tick, `pause`, `reset`, `completeSession`,
`saveSettings`, with any arguments) the count afterwards is at least the count
before; it is the count before plus one exactly when the operation ran
`completeSession` (which an operation does at most once) in work mode, and the
count before otherwise. Only `completeSession` and a tick can run
`completeSession`; `reset` and `completeSession` in a break leave the count as it
was; the tick callback run on its own never lowers the count either. -/
theorem sessionCount_monotone (op : Op) (s : PomodoroTimer) :
    s.sessionCount ≤ (op.apply s).sessionCount ∧
    (completions (op.apply s) = completions s ∨
      completions (op.apply s) = completions s + 1) ∧
    (op.apply s).sessionCount =
      (if completions (op.apply s) = completions s + 1 ∧ s.currentMode = Mode.work
        then s.sessionCount + 1 else s.sessionCount) ∧
    (op ≠ Op.completeSession → op ≠ Op.tick →
      completions (op.apply s) = completions s) ∧
    (completeSession s).sessionCount =
      (if s.currentMode = Mode.work then s.sessionCount + 1 else s.sessionCount) ∧
    (reset s).sessionCount = s.sessionCount ∧
    s.sessionCount ≤ (tick s).sessionCount := by
  have key : (completions (op.apply s) = completions s ∧
        (op.apply s).sessionCount = s.sessionCount) ∨
      (completions (op.apply s) = completions s + 1 ∧
        (op.apply s).sessionCount =
          if s.currentMode = Mode.work then s.sessionCount + 1 else s.sessionCount) := by
    cases op with
    | switchMode m => exact Or.inl ⟨completions_switchMode m s, switchMode_sessionCount m s⟩
    | start => exact Or.inl ⟨by simp [Op.apply, completions], start_sessionCount s⟩
    | tick =>
      simp only [Op.apply, intervalFires]
      split
      · exact Or.inl ⟨rfl, rfl⟩
      · exact tick_count s
    | pause => exact Or.inl ⟨by simp [Op.apply, completions], pause_sessionCount s⟩
    | reset => exact Or.inl ⟨by simp [Op.apply, completions], reset_sessionCount s⟩
    | completeSession =>
      exact Or.inr ⟨completeSession_completions s, completeSession_sessionCount s⟩
    | saveSettings w b l n =>
      exact Or.inl ⟨completions_saveSettings w b l n s, saveSettings_sessionCount w b l n s⟩
  have hfree : op ≠ Op.completeSession → op ≠ Op.tick →
      completions (op.apply s) = completions s := by
    intro h1 h2
    cases op with
    | switchMode m => exact completions_switchMode m s
    | start => simp [Op.apply, completions]
    | tick => exact absurd rfl h2
    | pause => simp [Op.apply, completions]
    | reset => simp [Op.apply, completions]
    | completeSession => exact absurd rfl h1
    | saveSettings w b l n => exact completions_saveSettings w b l n s
  have htick : s.sessionCount ≤ (tick s).sessionCount := by
    rcases tick_count s with ⟨-, h⟩ | ⟨-, h⟩
    · rw [h]
    · rw [h]; split <;> omega
  refine ⟨?_, ?_, ?_, hfree, completeSession_sessionCount s, reset_sessionCount s, htick⟩
  · rcases key with ⟨-, h⟩ | ⟨-, h⟩
    · rw [h]
    · rw [h]; split <;> omega
  · rcases key with ⟨h, -⟩ | ⟨h, -⟩
    · exact Or.inl h
    · exact Or.inr h
  · rcases key with ⟨hc, h⟩ | ⟨hc, h⟩
    · rw [h, hc]; simp
    · rw [h, hc]; simp

/-- C8: a settings change and the active countdown. For in-bounds values: while
the timer is running `saveSettings` changes the four settings (and writes them to
storage) and nothing else, so `timeRemaining`, `currentMode`, `isRunning` and
`sessionCount` are as before; while it is not running, in a named mode, it
moreover sets `timeRemaining` to the new duration of the current mode. -/
theorem saveSettings_countdown (w b l n : JSNum) (s : PomodoroTimer)
    (hb : inBounds w b l n = true) :
    (s.isRunning = true →
      saveSettings w b l n s = withSettings w b l n s ∧
      (saveSettings w b l n s).timeRemaining = s.timeRemaining ∧
      (saveSettings w b l n s).currentMode = s.currentMode ∧
      (saveSettings w b l n s).isRunning = s.isRunning ∧
      (saveSettings w b l n s).sessionCount = s.sessionCount) ∧
    (s.isRunning = false → s.currentMode.named = true →
      saveSettings w b l n s =
        { withSettings w b l n s with
          timeRemaining := duration (withSettings w b l n s) s.currentMode } ∧
      (saveSettings w b l n s).timeRemaining =
        duration (saveSettings w b l n s) (saveSettings w b l n s).currentMode) := by
  rw [saveSettings_accepted w b l n s hb]
  constructor
  · intro hr
    simp [hr, withSettings]
  · intro hr hm
    have hne : s.currentMode ≠ Mode.other := by simpa [Mode.named] using hm
    have hp : pause (withSettings w b l n s) = withSettings w b l n s := by
      simp [pause, withSettings, hr]
    simp only [hr, Bool.false_eq_true, if_false, reset_eq, hp]
    have hmode : (withSettings w b l n s).currentMode = s.currentMode := rfl
    simp only [hmode, hne, if_false, true_and]
    cases hc : s.currentMode <;> simp [duration, withSettings]

/-- C8 at the stock timer: saving 30/10/20 minutes and 2 sessions while the
countdown runs, and while it is idle. -/
theorem saveSettings_countdown_witness :
    (saveSettings (JSNum.int 30) (JSNum.int 10) (JSNum.int 20) (JSNum.int 2)
        (start (newTimer true Permission.granted none))).timeRemaining = JSNum.int 1500 ∧
    (saveSettings (JSNum.int 30) (JSNum.int 10) (JSNum.int 20) (JSNum.int 2)
        (newTimer true Permission.granted none)).timeRemaining = JSNum.int 1800 := by
  have h1 := (saveSettings_countdown (JSNum.int 30) (JSNum.int 10) (JSNum.int 20) (JSNum.int 2)
    (start (newTimer true Permission.granted none)) (by decide)).1 rfl
  have h2 := (saveSettings_countdown (JSNum.int 30) (JSNum.int 10) (JSNum.int 20) (JSNum.int 2)
    (newTimer true Permission.granted none) (by decide)).2 rfl (by decide)
  refine ⟨h1.2.1, ?_⟩
  rw [h2.1]
  rfl

/-- C5, as stated, fails: on the stock timer, started and then paused with 1500
seconds remaining, one more run of the tick callback leaves 1499. -/
theorem stale_tick_decrements :
    (pause (start (newTimer true Permission.granted none))).timeRemaining = JSNum.int 1500 ∧
    (tick^[1] (pause (start (newTimer true Permission.granted none)))).timeRemaining =
      JSNum.int 1499 := by
  decide

/-- C5, amended: `pause()` clears the interval, so the timer queue delivers no
further tick. In every state where the running flag agrees with the timer queue
(the initial state is one, and every operation keeps it so), after `pause()` no
interval is live and any number of deliveries by the timer queue leave the whole
state as `pause()` left it: `timeRemaining` is unchanged and no `completeSession`
runs. -/
theorem pause_stops_ticks (s : PomodoroTimer) (n : Nat) (hc : Consistent s) :
    (pause s).liveIntervals = [] ∧
    intervalFires^[n] (pause s) = pause s ∧
    (intervalFires^[n] (pause s)).timeRemaining = (pause s).timeRemaining ∧
    completions (intervalFires^[n] (pause s)) = completions (pause s) ∧
    (∀ op : Op, Consistent (op.apply s)) := by
  have hl := (consistent_pause s hc).2
  have hfix : intervalFires (pause s) = pause s := by simp [intervalFires, hl]
  have hiter : intervalFires^[n] (pause s) = pause s := Function.iterate_fixed hfix n
  exact ⟨hl, hiter, by rw [hiter], by rw [hiter], fun op => consistent_apply op s hc⟩

/-- C5, amended, at the stock timer started by `start()`. -/
theorem pause_stops_ticks_witness :
    Consistent (start (newTimer true Permission.granted none)) ∧
    (intervalFires^[3] (pause (start (newTimer true Permission.granted none)))).timeRemaining =
      (pause (start (newTimer true Permission.granted none))).timeRemaining :=
  ⟨by simp [Consistent, start, newTimer, loadSettings],
    (pause_stops_ticks (start (newTimer true Permission.granted none)) 3
      (by simp [Consistent, start, newTimer, loadSettings])).2.2.1⟩

/-- C4, as stated, fails: on the stock timer `start()` followed by `saveSettings`
with 1, 5, 15 minutes and 4 sessions leaves 1500 seconds remaining in work mode
while the work duration is 60. -/
theorem running_save_exceeds_duration :
    IsInitial (newTimer true Permission.granted none) ∧
    Reachable (newTimer true Permission.granted none)
      (saveSettings (JSNum.int 1) (JSNum.int 5) (JSNum.int 15) (JSNum.int 4)
        (start (newTimer true Permission.granted none))) ∧
    (saveSettings (JSNum.int 1) (JSNum.int 5) (JSNum.int 15) (JSNum.int 4)
      (start (newTimer true Permission.granted none))).timeRemaining = JSNum.int 1500 ∧
    getTotalTimeForCurrentMode
      (saveSettings (JSNum.int 1) (JSNum.int 5) (JSNum.int 15) (JSNum.int 4)
        (start (newTimer true Permission.granted none))) = JSNum.int 60 ∧
    JSNum.le
      (saveSettings (JSNum.int 1) (JSNum.int 5) (JSNum.int 15) (JSNum.int 4)
        (start (newTimer true Permission.granted none))).timeRemaining
      (getTotalTimeForCurrentMode
        (saveSettings (JSNum.int 1) (JSNum.int 5) (JSNum.int 15) (JSNum.int 4)
          (start (newTimer true Permission.granted none)))) = false :=
  ⟨(initial_newTimer true Permission.granted).1,
    Reachable.step (Op.saveSettings (JSNum.int 1) (JSNum.int 5) (JSNum.int 15) (JSNum.int 4)) _
      (Reachable.step Op.start _ Reachable.initial rfl) (by decide),
    by decide, by decide, by decide⟩

/-- C4, amended: in every state reached from an initial state (work mode,
`timeRemaining = workDuration`, not running, `sessionCount = 0`, integer durations)
by `switchMode` to a named mode, `start`, delivered ticks, `pause`, `reset`,
`completeSession` and `saveSettings` with in-bounds values applied while the timer
is not running, `timeRemaining <= duration(currentMode)` under the settings of that
state. -/
theorem timeRemaining_le_duration (s0 s : PomodoroTimer) (h0 : IsInitial s0)
    (hr : ReachableIdleSave s0 s) :
    JSNum.le s.timeRemaining (getTotalTimeForCurrentMode s) = true := by
  rw [getTotalTime_eq_duration]
  exact (withinDuration_reachable s0 s h0 hr).2.2

/-- C4, amended, at the stock timer after `start()`, one tick, `pause()` and an
idle `saveSettings`. -/
theorem timeRemaining_le_duration_witness :
    IsInitial (newTimer true Permission.granted none) ∧
    JSNum.le
      (saveSettings (JSNum.int 1) (JSNum.int 5) (JSNum.int 15) (JSNum.int 4)
        (pause (intervalFires (start (newTimer true Permission.granted none))))).timeRemaining
      (getTotalTimeForCurrentMode
        (saveSettings (JSNum.int 1) (JSNum.int 5) (JSNum.int 15) (JSNum.int 4)
          (pause (intervalFires (start (newTimer true Permission.granted none)))))) = true :=
  ⟨(initial_newTimer true Permission.granted).1,
    timeRemaining_le_duration (newTimer true Permission.granted none) _
      (initial_newTimer true Permission.granted).1
      (ReachableIdleSave.step
        (Op.saveSettings (JSNum.int 1) (JSNum.int 5) (JSNum.int 15) (JSNum.int 4)) _
        (ReachableIdleSave.step Op.pause _
          (ReachableIdleSave.step Op.tick _
            (ReachableIdleSave.step Op.start _ ReachableIdleSave.initial rfl (by decide))
            rfl (by decide))
          rfl (by decide))
        (by decide) (fun _ => by decide))⟩

/-- C9, as stated, fails: on the stock timer `start()` followed by `saveSettings`
with 1, 5, 15 minutes and 4 sessions gives the progress value
`(60 - 1500) / 60 = -24`, below 0. -/
theorem running_save_negative_progress :
    IsInitial (newTimer true Permission.granted none) ∧
    Reachable (newTimer true Permission.granted none)
      (saveSettings (JSNum.int 1) (JSNum.int 5) (JSNum.int 15) (JSNum.int 4)
        (start (newTimer true Permission.granted none))) ∧
    progress
      (saveSettings (JSNum.int 1) (JSNum.int 5) (JSNum.int 15) (JSNum.int 4)
        (start (newTimer true Permission.granted none))) = some (-24) := by
  refine ⟨(initial_newTimer true Permission.granted).1,
    Reachable.step (Op.saveSettings (JSNum.int 1) (JSNum.int 5) (JSNum.int 15) (JSNum.int 4)) _
      (Reachable.step Op.start _ Reachable.initial rfl) (by decide), ?_⟩
  rw [progress_of _ 60 1500 (by decide) (by decide) (by decide)]
  norm_num

/-- C9, amended: from an initial state with positive integer durations, in every
state reached by admissible operations the divisor of the progress value is a
non-zero integer and the value is at most 1; when settings are saved only while
the timer is not running the value lies in `[0, 1]`; and it is 0 right after
`reset`, and right after a `switchMode` to a named mode made while the timer is not
running. -/
theorem progress_bounds (s0 s : PomodoroTimer) (h0 : IsInitial s0)
    (hpos : PositiveDurations s0) (hr : Reachable s0 s) :
    (∃ d : Int, getTotalTimeForCurrentMode s = JSNum.int d ∧ d ≠ 0) ∧
    (∃ q : ℚ, progress s = some q ∧ q ≤ 1) ∧
    (ReachableIdleSave s0 s → ∃ q : ℚ, progress s = some q ∧ 0 ≤ q ∧ q ≤ 1) ∧
    progress (reset s) = some 0 ∧
    (∀ m : Mode, m.named = true → s.isRunning = false →
      progress (switchMode m s) = some 0) := by
  have bound : ∀ t : PomodoroTimer, PositiveCountdown t →
      ∃ d r : Int, getTotalTimeForCurrentMode t = JSNum.int d ∧ t.timeRemaining = JSNum.int r ∧
        0 < d ∧ 1 ≤ r ∧ progress t = some (((d - r : Int) : ℚ) / (d : ℚ)) ∧
        ((d - r : Int) : ℚ) / (d : ℚ) ≤ 1 := by
    intro t ⟨_, hdur, r, htr, hr1⟩
    obtain ⟨d, hd, hd0⟩ := hdur t.currentMode
    rw [← getTotalTime_eq_duration] at hd
    refine ⟨d, r, hd, htr, hd0, hr1, progress_of t d r hd htr (by omega), ?_⟩
    have hdq : (0 : ℚ) < (d : ℚ) := by exact_mod_cast hd0
    rw [div_le_one hdq]
    exact_mod_cast (by omega : d - r ≤ d)
  have zero : ∀ t : PomodoroTimer, PositiveCountdown t →
      t.timeRemaining = duration t t.currentMode → progress t = some 0 := by
    intro t ht heq
    obtain ⟨d, r, hd, htr, -, -, hp, -⟩ := bound t ht
    rw [← getTotalTime_eq_duration, hd, htr] at heq
    have hrd : r = d := by simpa using heq
    rw [hp, hrd]
    simp
  have hs := positiveCountdown_reachable s0 s h0 hpos hr
  obtain ⟨d, r, hd, htr, hd0, hr1, hp, hle⟩ := bound s hs
  refine ⟨⟨d, hd, by omega⟩, ⟨_, hp, hle⟩, ?_, ?_, ?_⟩
  · intro hidle
    have hw := (withinDuration_reachable s0 s h0 hidle).2.2
    rw [← getTotalTime_eq_duration, hd, htr] at hw
    have hrd : r ≤ d := by simpa [JSNum.le] using hw
    refine ⟨_, hp, ?_, hle⟩
    apply div_nonneg
    · exact_mod_cast (by omega : 0 ≤ d - r)
    · exact_mod_cast (by omega : 0 ≤ d)
  · apply zero
    · exact positiveCountdown_reachable s0 _ h0 hpos (Reachable.step Op.reset s hr rfl)
    · rw [reset_eq]
      have hne := hs.1
      cases hm : s.currentMode <;> simp [duration, hm] at hne ⊢
  · intro m hm hidle
    apply zero
    · exact positiveCountdown_reachable s0 _ h0 hpos (Reachable.step (Op.switchMode m) s hr hm)
    · rw [switchMode_named_idle m s hm hidle]
      cases m <;> simp [duration]

/-- C9, amended, at the stock timer after `start()` and one tick. -/
theorem progress_bounds_witness :
    IsInitial (newTimer true Permission.granted none) ∧
    PositiveDurations (newTimer true Permission.granted none) ∧
    ∃ q : ℚ, progress (intervalFires (start (newTimer true Permission.granted none))) = some q ∧
      0 ≤ q ∧ q ≤ 1 :=
  ⟨(initial_newTimer true Permission.granted).1, (initial_newTimer true Permission.granted).2,
    (progress_bounds (newTimer true Permission.granted none) _
      (initial_newTimer true Permission.granted).1 (initial_newTimer true Permission.granted).2
      (Reachable.step Op.tick _ (Reachable.step Op.start _ Reachable.initial rfl) rfl)).2.2.1
      (ReachableIdleSave.step Op.tick _
        (ReachableIdleSave.step Op.start _ ReachableIdleSave.initial rfl (by decide))
        rfl (by decide))⟩

/-- C7, the code at the failing input: with the work field empty (`parseInt` gives
`NaN`) and 5, 15, 4 in the others, the candidate is not within bounds, yet
`saveSettings` on the stock timer shows no dialog, stores the settings and replaces
`workDuration` and `timeRemaining` by `NaN`. -/
theorem saveSettings_accepts_nan :
    inBounds JSNum.nan (JSNum.int 5) (JSNum.int 15) (JSNum.int 4) = false ∧
    (newTimer true Permission.granted none).workDuration = JSNum.int 1500 ∧
    (saveSettings JSNum.nan (JSNum.int 5) (JSNum.int 15) (JSNum.int 4)
      (newTimer true Permission.granted none)).workDuration = JSNum.nan ∧
    (saveSettings JSNum.nan (JSNum.int 5) (JSNum.int 15) (JSNum.int 4)
      (newTimer true Permission.granted none)).timeRemaining = JSNum.nan ∧
    (saveSettings JSNum.nan (JSNum.int 5) (JSNum.int 15) (JSNum.int 4)
      (newTimer true Permission.granted none)).effects =
      [Effect.setItem
        { workDuration := JSNum.nan
          shortBreakDuration := JSNum.int 300
          longBreakDuration := JSNum.int 900
          sessionsBeforeLongBreak := JSNum.int 4 }] := by
  decide

/-- C10, the code at the failing input: on the stock timer in work mode, with
notifications granted, `completeSession` shows the one notification
'Break over! Time to get back to work.'; completing the short break that follows
shows 'Break time! Take a well-deserved rest.'. -/
theorem notification_wording_swapped :
    (newTimer true Permission.granted none).currentMode = Mode.work ∧
    notifications (completeSession (newTimer true Permission.granted none)) =
      ["Break over! Time to get back to work."] ∧
    (completeSession (newTimer true Permission.granted none)).currentMode = Mode.shortBreak ∧
    notifications (completeSession (completeSession (newTimer true Permission.granted none))) =
      ["Break over! Time to get back to work.", "Break time! Take a well-deserved rest."] := by
  decide

end Pomodoro
